import Mathlib

/-!
Shallow embedding of the slide navigation and persistence controller of
`src/js/main.js` (class `PresentationController`).

Modelling conventions:
* JS numbers holding slide indices, coordinates and timestamps are `Int`
  (all arithmetic on them in the source is integer arithmetic on exactly
  representable values); the progress-bar percentage is computed in IEEE
  binary64 floating point, modelled exactly: every finite double is a
  rational, and `roundDouble` below is the binary64 rounding (round to
  nearest, ties to even) applied after each arithmetic operation.
* Each slide element is reduced to its two relevant CSS classes,
  `active` and `exit`.
* DOM-only effects with no bearing on controller state (focus transfer,
  the decorative stat-bar re-animation inside `updateProgress`, counter
  DOM text beyond its numeric value, `console.warn` logging) are not part
  of the state.
* `localStorage` is modelled as a single optional string (the one key
  `presentationProgress` is ever used) plus a flag `storageFails` saying
  whether storage access throws; the source's `try`/`catch` around
  storage access becomes an `if` on that flag that leaves state unchanged.
* The asynchronous transition of `goToSlide` (two `requestAnimationFrame`
  boundaries, then a 600 ms `setTimeout`) is split into the three phases
  `goToSlideStart` (synchronous part), `goToSlideCommit` (after the two
  frame boundaries) and `goToSlideSettle` (after the settle timer);
  `goToSlide` composes them, yielding the state once the whole sequence
  has run, which is what the claims about "after the full transition
  sequence" are about.
-/

namespace Presentation

/-- One slide element, reduced to its `active` and `exit` CSS classes. -/
structure Slide where
  active : Bool
  exit : Bool
deriving Repr, DecidableEq

/-- The `PresentationController` state: the fields of the JS class that
carry controller state, plus the modelled storage environment. -/
structure Ctrl where
  slides : List Slide
  currentSlide : Int
  totalSlides : Nat
  isAnimating : Bool
  prevDisabled : Bool
  nextDisabled : Bool
  progressWidth : ℚ
  counter : Int
  totalCounter : Int
  touchStartX : Int
  touchStartY : Int
  touchStartTime : Int
  storage : Option String
  storageFails : Bool
deriving Repr, DecidableEq

/-- `this.slides[i]` followed by a classList mutation, guarded by
`if (element)`: out-of-range or negative indices leave the list alone. -/
def modifySlideAt (l : List Slide) (i : Int) (f : Slide → Slide) : List Slide :=
  if 0 ≤ i then
    match l.get? i.toNat with
    | some s => l.set i.toNat (f s)
    | none => l
  else l

/-- `updateButtonStates(disabled = false)`:
`prevButton.disabled = disabled || currentSlide === 0`,
`nextButton.disabled = disabled || currentSlide === totalSlides - 1`. -/
def updateButtonStates (c : Ctrl) (disabled : Bool) : Ctrl :=
  { c with
    prevDisabled := disabled || decide (c.currentSlide = 0),
    nextDisabled := disabled || decide (c.currentSlide = (c.totalSlides : Int) - 1) }

/-! IEEE-754 binary64 arithmetic, the number type of the source's
JavaScript. Every finite double is a rational, so doubles are carried as
exact rationals and each arithmetic operation rounds its exact rational
result back to a double via `roundDouble` (round to nearest, ties to
even, 53-bit significand, gradual underflow at the 2^-1074 quantum).
Overflow to infinity is not modelled: every value this controller
computes lies in `[0, 100]` or is a slide index, far below the binary64
overflow threshold. -/

/-- Fuel-driven binary logarithm (the fuel `n` in `natLog2` always
suffices, since the argument halves at each step). -/
def natLog2Aux : Nat → Nat → Nat
  | _, 0 => 0
  | n, fuel + 1 => if 2 ≤ n then natLog2Aux (n / 2) fuel + 1 else 0

/-- Floor of the binary logarithm of a positive natural number. -/
def natLog2 (n : Nat) : Nat := natLog2Aux n n

/-- The rational value `2 ^ z` for an integer exponent. -/
def pow2 (z : Int) : ℚ :=
  if 0 ≤ z then ((2 ^ z.toNat : Nat) : ℚ)
  else 1 / ((2 ^ (-z).toNat : Nat) : ℚ)

/-- Floor of the binary logarithm of a positive rational `a / b`: when
`a ≥ b` it is the logarithm of the integer quotient; when `a < b` it is
`-j - 1` for `j` the logarithm of `b / a`, except one more when `a / b`
is exactly a power of two. -/
def ratFloorLog2 (q : ℚ) : Int :=
  let a := q.num.toNat
  let b := q.den
  if b ≤ a then (natLog2 (a / b) : Int)
  else
    let j := natLog2 (b / a)
    if b = a * 2 ^ j then -(j : Int) else -(j : Int) - 1

/-- Round a rational to the nearest integer, ties to even. -/
def roundHalfEven (q : ℚ) : Int :=
  let f := ⌊q⌋
  let r := q - (f : ℚ)
  if r < 1 / 2 then f
  else if 1 / 2 < r then f + 1
  else if f % 2 = 0 then f else f + 1

/-- Round a positive rational to the binary64 grid: significands carry
53 bits, so the quantum at magnitude `m` is `2 ^ (⌊log2 m⌋ - 52)`,
clamped below at the subnormal quantum `2 ^ -1074`. -/
def roundDoubleMag (m : ℚ) : ℚ :=
  let e := ratFloorLog2 m
  let scale := max (e - 52) (-1074)
  let k := roundHalfEven (m / pow2 scale)
  (k : ℚ) * pow2 scale

/-- The binary64 double nearest to a rational (ties to even). -/
def roundDouble (q : ℚ) : ℚ :=
  if q = 0 then 0
  else if q < 0 then -(roundDoubleMag (-q))
  else roundDoubleMag q

/-- JavaScript `+` on doubles: exact sum, correctly rounded. -/
def jsAdd (x y : ℚ) : ℚ := roundDouble (x + y)

/-- JavaScript `/` on doubles: exact quotient, correctly rounded. -/
def jsDiv (x y : ℚ) : ℚ := roundDouble (x / y)

/-- JavaScript `*` on doubles: exact product, correctly rounded. -/
def jsMul (x y : ℚ) : ℚ := roundDouble (x * y)

/-- `updateProgress()`: sets the progress-fill width to
`((currentSlide + 1) / totalSlides) * 100`, each operation performed in
binary64 (the operands themselves — a slide index and the slide count —
are integers below `2^53` in any reachable state, hence exact doubles;
the decorative stat-bar re-animation loop only touches DOM styling and
is not state). -/
def updateProgress (c : Ctrl) : Ctrl :=
  { c with progressWidth :=
      jsMul (jsDiv (jsAdd (c.currentSlide : ℚ) 1) (c.totalSlides : ℚ)) 100 }

/-- `updateSlideCounter()`: counter text `currentSlide + 1`, total text
`totalSlides`. -/
def updateSlideCounter (c : Ctrl) : Ctrl :=
  { c with counter := c.currentSlide + 1, totalCounter := (c.totalSlides : Int) }

/-- `saveProgress()`: `localStorage.setItem('presentationProgress',
currentSlide.toString())` inside `try`/`catch`; a throwing store leaves
everything unchanged (the catch only logs a warning). -/
def saveProgress (c : Ctrl) : Ctrl :=
  if c.storageFails then c
  else { c with storage := some (toString c.currentSlide) }

/-- Synchronous part of `goToSlide` after the guard: set the animation
lock, disable both buttons, move the current slide to `exit`, record the
new index. -/
def goToSlideStart (c : Ctrl) (index : Int) : Ctrl :=
  let c1 := { c with isAnimating := true }
  let c2 := updateButtonStates c1 true
  let c3 := { c2 with
    slides := modifySlideAt c2.slides c2.currentSlide
      (fun s => { s with active := false, exit := true }) }
  { c3 with currentSlide := index }

/-- Body of the double `requestAnimationFrame` callback: activate the new
slide, refresh progress and counter, persist. -/
def goToSlideCommit (c : Ctrl) : Ctrl :=
  let c1 := { c with
    slides := modifySlideAt c.slides c.currentSlide
      (fun s => { s with exit := false, active := true }) }
  saveProgress (updateSlideCounter (updateProgress c1))

/-- Body of the 600 ms `setTimeout` callback: release the animation lock
and recompute button states (focus transfer is DOM-only). -/
def goToSlideSettle (c : Ctrl) : Ctrl :=
  updateButtonStates { c with isAnimating := false } false

/-- `goToSlide(index)`: the guard
`if (isAnimating || index < 0 || index >= totalSlides) return;` followed
by the full transition sequence. -/
def goToSlide (c : Ctrl) (index : Int) : Ctrl :=
  if c.isAnimating = true ∨ index < 0 ∨ (c.totalSlides : Int) ≤ index then c
  else goToSlideSettle (goToSlideCommit (goToSlideStart c index))

/-- `nextSlide()`. -/
def nextSlide (c : Ctrl) : Ctrl :=
  if c.currentSlide < (c.totalSlides : Int) - 1 then goToSlide c (c.currentSlide + 1)
  else c

/-- `previousSlide()`. -/
def previousSlide (c : Ctrl) : Ctrl :=
  if 0 < c.currentSlide then goToSlide c (c.currentSlide - 1)
  else c

/-- `showSlide(index)`: strip `active`/`exit` from every slide, set
`active` on position `index`, then refresh index, progress, counter and
buttons synchronously. -/
def showSlide (c : Ctrl) (index : Int) : Ctrl :=
  let slides := c.slides.enum.map
    (fun p => if (p.1 : Int) = index then Slide.mk true false else Slide.mk false false)
  updateButtonStates (updateSlideCounter (updateProgress
    { c with slides := slides, currentSlide := index })) false

/-- `handleKeyboard(e)`: the `switch` on `e.key`; the returned `Bool`
records whether `e.preventDefault()` was invoked. -/
def handleKeyboard (c : Ctrl) (key : String) : Ctrl × Bool :=
  if c.isAnimating then (c, false)
  else if key = "ArrowLeft" ∨ key = "PageUp" then (previousSlide c, true)
  else if key = "ArrowRight" ∨ key = "PageDown" ∨ key = " " then (nextSlide c, true)
  else if key = "Home" then (goToSlide c 0, true)
  else if key = "End" then (goToSlide c ((c.totalSlides : Int) - 1), true)
  else (c, false)

/-- `handleTouchStart(e)`: record the gesture origin. -/
def handleTouchStart (c : Ctrl) (x y time : Int) : Ctrl :=
  { c with touchStartX := x, touchStartY := y, touchStartTime := time }

/-- `handleTouchEnd(e)`: the swipe recognizer; the returned `Bool`
records whether `e.preventDefault()` was invoked. -/
def handleTouchEnd (c : Ctrl) (endX endY now : Int) : Ctrl × Bool :=
  if c.isAnimating then (c, false)
  else
    let deltaX := endX - c.touchStartX
    let deltaY := endY - c.touchStartY
    let deltaTime := now - c.touchStartTime
    if deltaY.natAbs < deltaX.natAbs ∧ 50 < deltaX.natAbs ∧ deltaTime < 500 then
      if 0 < deltaX then (previousSlide c, true) else (nextSlide c, true)
    else (c, false)

/-! JS `parseInt` with no radix argument, as used by `loadProgress`:
skip leading whitespace, take an optional sign, detect a `0x`/`0X` hex
prefix, then consume the longest digit prefix; `none` models `NaN`. -/

/-- Leading-whitespace stripping of `parseInt` (the common ASCII
whitespace characters). -/
def skipWs : List Char → List Char
  | c :: rest =>
      if c = ' ' ∨ c = '\t' ∨ c = '\n' ∨ c = '\r' then skipWs rest else c :: rest
  | [] => []

/-- Decimal digit value. -/
def decDigitVal (c : Char) : Option Nat :=
  if '0' ≤ c ∧ c ≤ '9' then some (c.toNat - '0'.toNat) else none

/-- Hexadecimal digit value. -/
def hexDigitVal (c : Char) : Option Nat :=
  if '0' ≤ c ∧ c ≤ '9' then some (c.toNat - '0'.toNat)
  else if 'a' ≤ c ∧ c ≤ 'f' then some (c.toNat - 'a'.toNat + 10)
  else if 'A' ≤ c ∧ c ≤ 'F' then some (c.toNat - 'A'.toNat + 10)
  else none

/-- Consume the longest prefix of digits of the given base; no digit at
all yields `none` (`NaN`). -/
def parseDigits (base : Nat) (val : Char → Option Nat) (cs : List Char) : Option Nat :=
  match cs.takeWhile (fun c => (val c).isSome) with
  | [] => none
  | ds => some (ds.foldl (fun acc c => acc * base + (val c).getD 0) 0)

/-- Magnitude part of `parseInt`: hex after a `0x`/`0X` prefix, else
decimal. -/
def jsParseIntMag (cs : List Char) : Option Nat :=
  match cs with
  | '0' :: 'x' :: rest => parseDigits 16 hexDigitVal rest
  | '0' :: 'X' :: rest => parseDigits 16 hexDigitVal rest
  | _ => parseDigits 10 decDigitVal cs

/-- Signed `parseInt` core. -/
def jsParseIntCore (cs : List Char) : Option Int :=
  match cs with
  | '-' :: rest => (jsParseIntMag rest).map (fun n => -(n : Int))
  | '+' :: rest => (jsParseIntMag rest).map (fun n => (n : Int))
  | _ => (jsParseIntMag cs).map (fun n => (n : Int))

/-- `parseInt(s)`: `none` models `NaN`. -/
def jsParseInt (s : String) : Option Int :=
  jsParseIntCore (skipWs s.toList)

/-- `loadProgress()`: read the stored value, adopt it as the current
index only if `parseInt` succeeds and the value is in range; a throwing
read (caught in the source) leaves everything unchanged. -/
def loadProgress (c : Ctrl) : Ctrl :=
  if c.storageFails then c
  else
    match c.storage with
    | none => c
    | some saved =>
        match jsParseInt saved with
        | none => c
        | some savedSlide =>
            if 0 ≤ savedSlide ∧ savedSlide < (c.totalSlides : Int) then
              { c with currentSlide := savedSlide }
            else c

/-- The field initializers of the constructor, before `init()` runs
(`currentSlide = 0`, `totalSlides = slides.length`, `isAnimating =
false`); the storage environment is a parameter. -/
def newController (slides : List Slide) (storage : Option String) (storageFails : Bool) : Ctrl :=
  { slides := slides
    currentSlide := 0
    totalSlides := slides.length
    isAnimating := false
    prevDisabled := false
    nextDisabled := false
    progressWidth := 0
    counter := 0
    totalCounter := 0
    touchStartX := 0
    touchStartY := 0
    touchStartTime := 0
    storage := storage
    storageFails := storageFails }

/-- `init()`: the state-relevant calls in source order —
`updateSlideCounter`, `updateProgress`, `updateButtonStates`,
`loadProgress`, then `showSlide(0)` (listener wiring and chart
construction touch no controller state). -/
def init (c : Ctrl) : Ctrl :=
  showSlide (loadProgress (updateButtonStates (updateProgress (updateSlideCounter c)) false)) 0

/-- `new PresentationController()` over a given slide list and storage
environment: field initializers followed by `init()`. -/
def mkController (slides : List Slide) (storage : Option String) (storageFails : Bool) : Ctrl :=
  init (newController slides storage storageFails)

/-! The debounced resize handler (`handleResize`) and its timer, modelled
over absolute times in milliseconds. Only the pieces of state the
handler's timer logic drives are carried: the pending timeout's absolute
fire time and, per registered chart, how many `resize()` calls it has
received (the device-class flags recomputed in the callback only select
styling). -/

/-- State of the resize debouncing: the pending `resizeTimeout`'s
absolute fire time, and the per-chart count of `resize()` calls. -/
structure RState where
  pending : Option Nat
  chartResizes : List Nat
deriving Repr, DecidableEq

/-- A due timer fires before anything later is processed: the debounce
callback calls `resize()` once on every registered chart. -/
def fireDue (s : RState) (now : Nat) : RState :=
  match s.pending with
  | some ft =>
      if ft ≤ now then { pending := none, chartResizes := s.chartResizes.map (fun n => n + 1) }
      else s
  | none => s

/-- `handleResize()` at time `now`: `clearTimeout` on any pending timer,
then `setTimeout(..., 250)`. -/
def resizeEvent (s : RState) (now : Nat) : RState :=
  { pending := some (now + 250), chartResizes := s.chartResizes }

/-- Run a sequence of resize events at the given (nondecreasing) times,
letting a due timer fire before each event. -/
def processResizeEvents (s : RState) : List Nat → RState
  | [] => s
  | t :: rest => processResizeEvents (resizeEvent (fireDue s t) t) rest

/-- Let time run out: a still-pending timer fires. -/
def finishResize (s : RState) : RState :=
  match s.pending with
  | some _ => { pending := none, chartResizes := s.chartResizes.map (fun n => n + 1) }
  | none => s

/-- Initial resize state over `n` registered charts: no pending timer,
no `resize()` call yet. -/
def initResize (n : Nat) : RState :=
  { pending := none, chartResizes := List.replicate n 0 }

/-- Every two consecutive event times are separated by less than `d`. -/
def gapsLt (d : Nat) : List Nat → Bool
  | a :: b :: rest => decide (b < a + d) && gapsLt d (b :: rest)
  | _ => true

/-- Last element of a list, with a default. -/
def lastD (d : Nat) : List Nat → Nat
  | [] => d
  | a :: rest => lastD a rest

/-- Whether the slide at position `i` carries the `active` class
(`false` beyond the end of the list). -/
def activeAt (l : List Slide) (i : Nat) : Bool :=
  match l.get? i with
  | some s => s.active
  | none => false

/-- Position `j` is the one and only slide carrying the `active` class. -/
def ActiveExactly (l : List Slide) (j : Int) : Prop :=
  ∀ i : Nat, activeAt l i = true ↔ (i : Int) = j

/-- A slide with neither class, as the slides stand in the initial DOM. -/
def blankSlide : Slide :=
  { active := false, exit := false }

/-- A five-slide controller freshly constructed over empty storage,
used to instantiate the universally quantified theorems. -/
def demo5 : Ctrl :=
  mkController [blankSlide, blankSlide, blankSlide, blankSlide, blankSlide] none false

/-- A three-slide controller freshly constructed over empty storage. -/
def demo3 : Ctrl :=
  mkController [blankSlide, blankSlide, blankSlide] none false

/-! Helper lemmas: how each operation acts on the individual fields. -/

@[simp]
theorem saveProgress_currentSlide (c : Ctrl) : (saveProgress c).currentSlide = c.currentSlide := by
  unfold saveProgress; split <;> rfl

@[simp]
theorem saveProgress_slides (c : Ctrl) : (saveProgress c).slides = c.slides := by
  unfold saveProgress; split <;> rfl

@[simp]
theorem saveProgress_isAnimating (c : Ctrl) : (saveProgress c).isAnimating = c.isAnimating := by
  unfold saveProgress; split <;> rfl

@[simp]
theorem saveProgress_totalSlides (c : Ctrl) : (saveProgress c).totalSlides = c.totalSlides := by
  unfold saveProgress; split <;> rfl

@[simp]
theorem saveProgress_progressWidth (c : Ctrl) : (saveProgress c).progressWidth = c.progressWidth := by
  unfold saveProgress; split <;> rfl

@[simp]
theorem saveProgress_prevDisabled (c : Ctrl) : (saveProgress c).prevDisabled = c.prevDisabled := by
  unfold saveProgress; split <;> rfl

@[simp]
theorem saveProgress_nextDisabled (c : Ctrl) : (saveProgress c).nextDisabled = c.nextDisabled := by
  unfold saveProgress; split <;> rfl

@[simp]
theorem saveProgress_counter (c : Ctrl) : (saveProgress c).counter = c.counter := by
  unfold saveProgress; split <;> rfl

@[simp]
theorem goToSlideStart_currentSlide (c : Ctrl) (t : Int) :
    (goToSlideStart c t).currentSlide = t := rfl

@[simp]
theorem goToSlideStart_totalSlides (c : Ctrl) (t : Int) :
    (goToSlideStart c t).totalSlides = c.totalSlides := rfl

@[simp]
theorem goToSlideStart_slides (c : Ctrl) (t : Int) :
    (goToSlideStart c t).slides =
      modifySlideAt c.slides c.currentSlide (fun s => { s with active := false, exit := true }) := rfl

@[simp]
theorem goToSlideStart_storage (c : Ctrl) (t : Int) :
    (goToSlideStart c t).storage = c.storage := rfl

@[simp]
theorem goToSlideStart_storageFails (c : Ctrl) (t : Int) :
    (goToSlideStart c t).storageFails = c.storageFails := rfl

@[simp]
theorem goToSlideCommit_currentSlide (c : Ctrl) :
    (goToSlideCommit c).currentSlide = c.currentSlide := by
  simp [goToSlideCommit, updateProgress, updateSlideCounter]

@[simp]
theorem goToSlideCommit_totalSlides (c : Ctrl) :
    (goToSlideCommit c).totalSlides = c.totalSlides := by
  simp [goToSlideCommit, updateProgress, updateSlideCounter]

@[simp]
theorem goToSlideCommit_slides (c : Ctrl) :
    (goToSlideCommit c).slides =
      modifySlideAt c.slides c.currentSlide (fun s => { s with exit := false, active := true }) := by
  simp [goToSlideCommit, updateProgress, updateSlideCounter]

@[simp]
theorem goToSlideCommit_isAnimating (c : Ctrl) :
    (goToSlideCommit c).isAnimating = c.isAnimating := by
  simp [goToSlideCommit, updateProgress, updateSlideCounter]

@[simp]
theorem goToSlideCommit_progressWidth (c : Ctrl) :
    (goToSlideCommit c).progressWidth =
      jsMul (jsDiv (jsAdd (c.currentSlide : ℚ) 1) (c.totalSlides : ℚ)) 100 := by
  simp [goToSlideCommit, updateProgress, updateSlideCounter]

@[simp]
theorem goToSlideSettle_isAnimating (c : Ctrl) :
    (goToSlideSettle c).isAnimating = false := rfl

@[simp]
theorem goToSlideSettle_currentSlide (c : Ctrl) :
    (goToSlideSettle c).currentSlide = c.currentSlide := rfl

@[simp]
theorem goToSlideSettle_slides (c : Ctrl) :
    (goToSlideSettle c).slides = c.slides := rfl

@[simp]
theorem goToSlideSettle_totalSlides (c : Ctrl) :
    (goToSlideSettle c).totalSlides = c.totalSlides := rfl

@[simp]
theorem goToSlideSettle_progressWidth (c : Ctrl) :
    (goToSlideSettle c).progressWidth = c.progressWidth := rfl

theorem goToSlideSettle_prevDisabled (c : Ctrl) :
    (goToSlideSettle c).prevDisabled = decide (c.currentSlide = 0) := by
  simp [goToSlideSettle, updateButtonStates]

theorem goToSlideSettle_nextDisabled (c : Ctrl) :
    (goToSlideSettle c).nextDisabled = decide (c.currentSlide = (c.totalSlides : Int) - 1) := by
  simp [goToSlideSettle, updateButtonStates]

/-! Helper lemmas about the slide-list surgery. -/

@[simp]
theorem activeAt_nil (i : Nat) : activeAt [] i = false := rfl

@[simp]
theorem activeAt_cons_zero (a : Slide) (tl : List Slide) : activeAt (a :: tl) 0 = a.active := rfl

@[simp]
theorem activeAt_cons_succ (a : Slide) (tl : List Slide) (i : Nat) :
    activeAt (a :: tl) (i + 1) = activeAt tl i := rfl

@[simp]
theorem length_modifySlideAt (l : List Slide) (j : Int) (f : Slide → Slide) :
    (modifySlideAt l j f).length = l.length := by
  unfold modifySlideAt
  split
  · split <;> simp
  · rfl

theorem get?_modifySlideAt (l : List Slide) (j : Int) (f : Slide → Slide) (i : Nat) :
    (modifySlideAt l j f).get? i =
      if (i : Int) = j then (l.get? i).map f else l.get? i := by
  unfold modifySlideAt
  simp only [List.get?_eq_getElem?]
  by_cases hj : 0 ≤ j
  · by_cases hij : (i : Int) = j
    · have hi : i = j.toNat := by omega
      cases hg : l[j.toNat]? with
      | none => simp [hj, hij, hg, hi]
      | some s =>
          have hlt : j.toNat < l.length := by
            by_contra hb
            rw [List.getElem?_eq_none (by omega)] at hg
            cases hg
          simp [hj, hij, hg, hi, List.getElem?_set_eq_of_lt (f s) hlt]
    · cases hg : l[j.toNat]? with
      | none => simp [hj, hij, hg]
      | some s =>
          have hne : j.toNat ≠ i := by omega
          simp [hj, hij, hg, List.getElem?_set_ne hne]
  · have hij : ¬ ((i : Int) = j) := by omega
    simp [hj, hij]

theorem set_get?_self (l : List Slide) (n : Nat) (a : Slide) (h : l.get? n = some a) :
    l.set n a = l := by
  induction l generalizing n with
  | nil => simp at h
  | cons b tl ih =>
      cases n with
      | zero =>
          simp only [List.get?] at h
          cases h
          rfl
      | succ m =>
          simp only [List.get?] at h
          simp [List.set, ih m h]

theorem filter_active_len_zero (l : List Slide) (hnone : ∀ i, activeAt l i = false) :
    (l.filter (fun s => s.active)).length = 0 := by
  induction l with
  | nil => rfl
  | cons a tl ih =>
      have h0 : a.active = false := hnone 0
      have htl : ∀ i, activeAt tl i = false := fun i => hnone (i + 1)
      simp [List.filter, h0, ih htl]

theorem filter_active_len_one (l : List Slide) (k : Nat) (hk : k < l.length)
    (h : ∀ i, activeAt l i = true ↔ i = k) :
    (l.filter (fun s => s.active)).length = 1 := by
  induction l generalizing k with
  | nil => simp at hk
  | cons a tl ih =>
      cases k with
      | zero =>
          have h0 : a.active = true := (h 0).mpr rfl
          have htl : ∀ i, activeAt tl i = false := by
            intro i
            have := h (i + 1)
            simp only [activeAt_cons_succ] at this
            by_contra hb
            have : i + 1 = 0 := this.mp (by revert hb; cases activeAt tl i <;> simp)
            omega
          simp [List.filter, h0, filter_active_len_zero tl htl]
      | succ m =>
          have h0 : a.active = false := by
            have := h 0
            simp only [activeAt_cons_zero] at this
            by_contra hb
            have : (0 : Nat) = m + 1 := this.mp (by revert hb; cases a.active <;> simp)
            omega
          have hm : m < tl.length := by simp at hk; omega
          have htl : ∀ i, activeAt tl i = true ↔ i = m := by
            intro i
            have := h (i + 1)
            simp only [activeAt_cons_succ] at this
            rw [this]
            omega
          simp [List.filter, h0, ih m hm htl]

theorem activeExactly_of_bounded (l : List Slide) (j : Int)
    (hjl : j < (l.length : Int))
    (h : ∀ i, i < l.length → (activeAt l i = true ↔ (i : Int) = j)) :
    ActiveExactly l j := by
  intro i
  by_cases hi : i < l.length
  · exact h i hi
  · have hnone : l.get? i = none := List.get?_eq_none.2 (by omega)
    have : activeAt l i = false := by unfold activeAt; rw [hnone]
    rw [this]
    constructor
    · intro hb; cases hb
    · intro hb; omega

theorem activeExactly_toNat (l : List Slide) (t : Int) (ht : 0 ≤ t)
    (h : ActiveExactly l t) :
    ∀ i, activeAt l i = true ↔ i = t.toNat := by
  intro i
  rw [h i]
  omega

/-- An accepted `goToSlide` call runs the three transition phases. -/
theorem goToSlide_run (c : Ctrl) (t : Int)
    (hidle : c.isAnimating = false) (ht0 : 0 ≤ t) (htlt : t < (c.totalSlides : Int)) :
    goToSlide c t = goToSlideSettle (goToSlideCommit (goToSlideStart c t)) := by
  unfold goToSlide
  rw [if_neg]
  intro hor
  rcases hor with h | h | h
  · rw [hidle] at h; cases h
  · omega
  · omega

theorem activeAt_modify_activate (l : List Slide) (j : Int) (i : Nat) :
    activeAt (modifySlideAt l j (fun s => { s with exit := false, active := true })) i =
      if (i : Int) = j then decide (i < l.length) else activeAt l i := by
  unfold activeAt
  rw [get?_modifySlideAt]
  by_cases hij : (i : Int) = j
  · rw [if_pos hij, if_pos hij]
    cases hg : l.get? i with
    | none =>
        have : l.length ≤ i := List.get?_eq_none.1 hg
        simp
        omega
    | some s =>
        have : ¬ (l.length ≤ i) := by
          intro hb
          rw [List.get?_eq_none.2 hb] at hg
          cases hg
        simp
        omega
  · rw [if_neg hij, if_neg hij]

theorem activeAt_modify_exit (l : List Slide) (j : Int) (i : Nat) :
    activeAt (modifySlideAt l j (fun s => { s with active := false, exit := true })) i =
      if (i : Int) = j then false else activeAt l i := by
  unfold activeAt
  rw [get?_modifySlideAt]
  by_cases hij : (i : Int) = j
  · rw [if_pos hij, if_pos hij]
    cases hg : l.get? i with
    | none => rfl
    | some s => rfl
  · rw [if_neg hij, if_neg hij]

/-- After an accepted transition to `t`, position `t` is the one and only
slide carrying the `active` class. -/
theorem activeExactly_goToSlide (c : Ctrl) (t : Int)
    (hidle : c.isAnimating = false) (ht0 : 0 ≤ t) (htlt : t < (c.totalSlides : Int))
    (hlen : c.slides.length = c.totalSlides)
    (hact : ActiveExactly c.slides c.currentSlide) :
    ActiveExactly (goToSlide c t).slides t := by
  rw [goToSlide_run c t hidle ht0 htlt]
  intro i
  simp only [goToSlideSettle_slides, goToSlideCommit_slides, goToSlideStart_slides,
    goToSlideStart_currentSlide]
  rw [activeAt_modify_activate, length_modifySlideAt]
  by_cases hit : (i : Int) = t
  · rw [if_pos hit]
    have : i < c.slides.length := by omega
    simp [this, hit]
  · rw [if_neg hit, activeAt_modify_exit]
    by_cases hic : (i : Int) = c.currentSlide
    · rw [if_pos hic]
      constructor
      · intro hb; cases hb
      · intro hb; exact absurd hb hit
    · rw [if_neg hic, hact i]
      constructor
      · intro hb; exact absurd hb hic
      · intro hb; exact absurd hb hit

@[simp]
theorem goToSlideCommit_counter (c : Ctrl) :
    (goToSlideCommit c).counter = c.currentSlide + 1 := by
  simp [goToSlideCommit, updateProgress, updateSlideCounter]

@[simp]
theorem goToSlideSettle_counter (c : Ctrl) :
    (goToSlideSettle c).counter = c.counter := rfl

/-! C2 and C9 below build on the accepted-run characterization. -/

/-- C2: for every in-range `target`, `goTo(target)` issued while `Idle`,
once the two animation-frame boundaries and the 600 ms settle delay have
run, leaves the controller `Idle` with current index `target`, exactly
one slide carrying the `active` mark (namely `target`), the previous
control disabled iff `target` is `0`, and the next control disabled iff
`target` is the last index. -/
theorem claim2_goTo_full_transition (c : Ctrl) (t : Int)
    (hidle : c.isAnimating = false) (ht0 : 0 ≤ t) (htlt : t < (c.totalSlides : Int))
    (hlen : c.slides.length = c.totalSlides)
    (hact : ActiveExactly c.slides c.currentSlide) :
    (goToSlide c t).isAnimating = false ∧
    (goToSlide c t).currentSlide = t ∧
    ActiveExactly (goToSlide c t).slides t ∧
    ((goToSlide c t).slides.filter (fun s => s.active)).length = 1 ∧
    ((goToSlide c t).prevDisabled = true ↔ t = 0) ∧
    ((goToSlide c t).nextDisabled = true ↔ t = (c.totalSlides : Int) - 1) := by
  have hrun := goToSlide_run c t hidle ht0 htlt
  have hae := activeExactly_goToSlide c t hidle ht0 htlt hlen hact
  refine ⟨?_, ?_, hae, ?_, ?_, ?_⟩
  · rw [hrun]; simp
  · rw [hrun]; simp
  · apply filter_active_len_one _ t.toNat
    · rw [hrun]
      simp only [goToSlideSettle_slides, goToSlideCommit_slides, goToSlideStart_slides,
        length_modifySlideAt]
      omega
    · exact activeExactly_toNat _ t ht0 hae
  · rw [hrun, goToSlideSettle_prevDisabled]
    simp only [goToSlideCommit_currentSlide, goToSlideStart_currentSlide]
    simp
  · rw [hrun, goToSlideSettle_nextDisabled]
    simp only [goToSlideCommit_currentSlide, goToSlideStart_currentSlide,
      goToSlideCommit_totalSlides, goToSlideStart_totalSlides]
    simp

/-- Witness for C2 at a concrete five-slide controller and target 3. -/
theorem claim2_goTo_full_transition_witness :
    (goToSlide demo5 3).isAnimating = false ∧
    (goToSlide demo5 3).currentSlide = 3 ∧
    ActiveExactly (goToSlide demo5 3).slides 3 ∧
    ((goToSlide demo5 3).slides.filter (fun s => s.active)).length = 1 ∧
    ((goToSlide demo5 3).prevDisabled = true ↔ (3 : Int) = 0) ∧
    ((goToSlide demo5 3).nextDisabled = true ↔ (3 : Int) = (demo5.totalSlides : Int) - 1) :=
  claim2_goTo_full_transition demo5 3 (by decide) (by decide) (by decide) (by decide)
    (activeExactly_of_bounded demo5.slides demo5.currentSlide (by decide) (by decide))

/-! Evaluation lemmas for the binary64 model, used to settle C9. -/

theorem pow2_eq_zpow (z : Int) : pow2 z = (2 : ℚ) ^ z := by
  unfold pow2
  by_cases h : 0 ≤ z
  · rw [if_pos h]
    push_cast
    rw [← zpow_natCast (2 : ℚ) z.toNat, Int.toNat_of_nonneg h]
  · rw [if_neg h, one_div]
    have hcast : ((2 ^ (-z).toNat : Nat) : ℚ) = (2 : ℚ) ^ (-z) := by
      push_cast
      rw [← zpow_natCast (2 : ℚ) (-z).toNat, Int.toNat_of_nonneg (by omega)]
    rw [hcast, ← zpow_neg, neg_neg]

theorem roundHalfEven_eq (q : ℚ) (k : Int)
    (h1 : -(1 / 2) < q - (k : ℚ)) (h2 : q - (k : ℚ) < 1 / 2) :
    roundHalfEven q = k := by
  unfold roundHalfEven
  by_cases hk : (k : ℚ) ≤ q
  · have hf : ⌊q⌋ = k := by
      rw [Int.floor_eq_iff]
      exact ⟨hk, by linarith⟩
    rw [hf, if_pos (by linarith)]
  · push_neg at hk
    have hf : ⌊q⌋ = k - 1 := by
      rw [Int.floor_eq_iff]
      constructor
      · push_cast; linarith
      · push_cast; linarith
    rw [hf]
    rw [if_neg (by push_cast; intro hb; linarith), if_pos (by push_cast; linarith)]
    omega

/-- Evaluating `roundDouble` at a positive rational: if `e` is the floor
binary logarithm (above the subnormal range) and `k` is within half a
unit of `q` scaled to the 53-bit grid, the rounded double is
`k * 2 ^ (e - 52)`. -/
theorem roundDouble_eq_pos (q : ℚ) (e k : Int)
    (hq : 0 < q) (he : ratFloorLog2 q = e) (hne : -1074 ≤ e - 52)
    (h1 : -(1 / 2) < q / (2 : ℚ) ^ (e - 52) - (k : ℚ))
    (h2 : q / (2 : ℚ) ^ (e - 52) - (k : ℚ) < 1 / 2) :
    roundDouble q = (k : ℚ) * (2 : ℚ) ^ (e - 52) := by
  unfold roundDouble
  rw [if_neg hq.ne', if_neg (not_lt.2 hq.le)]
  simp only [roundDoubleMag, he]
  rw [max_eq_left (by omega), pow2_eq_zpow, roundHalfEven_eq _ k h1 h2]

theorem ratFloorLog2_of_ge (q : ℚ) (a b : Nat)
    (hnum : q.num = (a : Int)) (hden : q.den = b) (hba : b ≤ a) :
    ratFloorLog2 q = (natLog2 (a / b) : Int) := by
  simp only [ratFloorLog2, hnum, hden, Int.toNat_natCast]
  rw [if_pos hba]

theorem ratFloorLog2_of_lt (q : ℚ) (a b : Nat)
    (hnum : q.num = (a : Int)) (hden : q.den = b) (hba : ¬ b ≤ a)
    (hpow : ¬ b = a * 2 ^ natLog2 (b / a)) :
    ratFloorLog2 q = -(natLog2 (b / a) : Int) - 1 := by
  simp only [ratFloorLog2, hnum, hden, Int.toNat_natCast]
  rw [if_neg hba, if_neg hpow]

theorem roundDouble_three : roundDouble 3 = 3 := by
  have he : ratFloorLog2 3 = 1 := by
    rw [ratFloorLog2_of_ge 3 3 1 (by norm_num) (by norm_num) (by norm_num)]
    decide
  have h := roundDouble_eq_pos 3 1 6755399441055744 (by norm_num) he (by norm_num)
    (by norm_num) (by norm_num)
  rw [h]
  norm_num

theorem roundDouble_one : roundDouble 1 = 1 := by
  have he : ratFloorLog2 1 = 0 := by
    rw [ratFloorLog2_of_ge 1 1 1 (by norm_num) (by norm_num) (by norm_num)]
    decide
  have h := roundDouble_eq_pos 1 0 4503599627370496 (by norm_num) he (by norm_num)
    (by norm_num) (by norm_num)
  rw [h]
  norm_num

/-- `3 / 5` is not a double: it rounds down to
`5404319552844595 * 2 ^ -53 = 0.59999999999999997779…`. -/
theorem roundDouble_threeFifths :
    roundDouble (3 / 5) = 5404319552844595 / 9007199254740992 := by
  have he : ratFloorLog2 (3 / 5) = -1 := by
    rw [ratFloorLog2_of_lt (3 / 5) 3 5 (by norm_num) (by norm_num) (by norm_num) (by decide)]
    decide
  have h := roundDouble_eq_pos (3 / 5) (-1) 5404319552844595 (by norm_num) he (by norm_num)
    (by norm_num) (by norm_num)
  rw [h]
  norm_num

/-- The double `fl(3/5)` times `100` rounds up to exactly `60`. -/
theorem roundDouble_sixty :
    roundDouble (135107988821114875 / 2251799813685248) = 60 := by
  have he : ratFloorLog2 (135107988821114875 / 2251799813685248) = 5 := by
    rw [ratFloorLog2_of_ge (135107988821114875 / 2251799813685248) 135107988821114875
      2251799813685248 (by norm_num) (by norm_num) (by norm_num)]
    decide
  have h := roundDouble_eq_pos (135107988821114875 / 2251799813685248) 5 8444249301319680
    (by norm_num) he (by norm_num) (by norm_num) (by norm_num)
  rw [h]
  norm_num

/-- `1 / 3` is not a double: it rounds down to
`6004799503160661 * 2 ^ -54`. -/
theorem roundDouble_oneThird :
    roundDouble (1 / 3) = 6004799503160661 / 18014398509481984 := by
  have he : ratFloorLog2 (1 / 3) = -2 := by
    rw [ratFloorLog2_of_lt (1 / 3) 1 3 (by norm_num) (by norm_num) (by norm_num) (by decide)]
    decide
  have h := roundDouble_eq_pos (1 / 3) (-2) 6004799503160661 (by norm_num) he (by norm_num)
    (by norm_num) (by norm_num)
  rw [h]
  norm_num

/-- The double `fl(1/3)` times `100` rounds to
`2345624805922133 * 2 ^ -46 = 33.3333333333333357…`, a dyadic rational
distinct from `100 / 3`. -/
theorem roundDouble_thirdHundred :
    roundDouble (150119987579016525 / 4503599627370496)
      = 2345624805922133 / 70368744177664 := by
  have he : ratFloorLog2 (150119987579016525 / 4503599627370496) = 5 := by
    rw [ratFloorLog2_of_ge (150119987579016525 / 4503599627370496) 150119987579016525
      4503599627370496 (by norm_num) (by norm_num) (by norm_num)]
    decide
  have h := roundDouble_eq_pos (150119987579016525 / 4503599627370496) 5 4691249611844266
    (by norm_num) he (by norm_num) (by norm_num) (by norm_num)
  rw [h]
  norm_num

/-- C9 fails as stated: on three slides, settling on index 0 yields the
binary64 value `2345624805922133 * 2 ^ -46`, not the exact real value
`(0 + 1) / 3 * 100 = 100 / 3` — the two differ because neither `1 / 3`
nor `100 / 3` is representable in binary64. -/
theorem claim9_progress_formula_counterexample :
    (goToSlide demo3 0).progressWidth
      ≠ (((0 : Int) : ℚ) + 1) / (demo3.totalSlides : ℚ) * 100 := by
  rw [goToSlide_run demo3 0 (by decide) (by decide) (by decide)]
  simp only [goToSlideSettle_progressWidth, goToSlideCommit_progressWidth,
    goToSlideStart_currentSlide, goToSlideStart_totalSlides]
  have h3 : demo3.totalSlides = 3 := by decide
  rw [h3]
  push_cast
  simp only [jsMul, jsDiv, jsAdd]
  rw [show (0 : ℚ) + 1 = 1 from by norm_num, roundDouble_one, roundDouble_oneThird,
    show (6004799503160661 : ℚ) / 18014398509481984 * 100
      = 150119987579016525 / 4503599627370496 from by norm_num,
    roundDouble_thirdHundred]
  norm_num

/-- C9 (amended): the progress-bar fill percentage after settling on
`target` `t` over `n` slides is the IEEE binary64 evaluation of
`((t + 1) / n) * 100` — each operation correctly rounded to nearest,
ties to even; at the spec's instance `n = 5`, `t = 2` this value is
exactly `60` (see the witness), while exact equality with the real
value `(t + 1) / n * 100` fails in general. -/
theorem claim9_progress_binary64 (c : Ctrl) (t : Int)
    (hidle : c.isAnimating = false) (ht0 : 0 ≤ t) (htlt : t < (c.totalSlides : Int)) :
    (goToSlide c t).progressWidth
      = jsMul (jsDiv (jsAdd (t : ℚ) 1) (c.totalSlides : ℚ)) 100 := by
  rw [goToSlide_run c t hidle ht0 htlt]
  simp

/-- Witness for C9: five slides, settling on index 2 gives exactly 60,
also in binary64. -/
theorem claim9_progress_binary64_witness :
    (goToSlide demo5 2).progressWidth = 60 := by
  rw [claim9_progress_binary64 demo5 2 (by decide) (by decide) (by decide)]
  have h5 : demo5.totalSlides = 5 := by decide
  rw [h5]
  push_cast
  simp only [jsMul, jsDiv, jsAdd]
  rw [show (2 : ℚ) + 1 = 3 from by norm_num, roundDouble_three, roundDouble_threeFifths,
    show (5404319552844595 : ℚ) / 9007199254740992 * 100
      = 135107988821114875 / 2251799813685248 from by norm_num,
    roundDouble_sixty]

/-- While the animation lock is held every `goToSlide` call is dropped. -/
theorem goToSlide_animating (c : Ctrl) (h : c.isAnimating = true) (j : Int) :
    goToSlide c j = c := by
  unfold goToSlide
  rw [if_pos (Or.inl h)]

/-- C3: every navigation request issued while the controller is
`Transitioning` — a direct `goToSlide`, `nextSlide`, `previousSlide`, a
keyboard event or a touch-end event — leaves the current index, the
slides' active/exit markings and the persisted stored value unchanged. -/
theorem claim3_transitioning_rejects (c : Ctrl) (j : Int) (key : String)
    (ex ey tn : Int) (h : c.isAnimating = true) :
    ((goToSlide c j).currentSlide = c.currentSlide ∧
     (goToSlide c j).slides = c.slides ∧
     (goToSlide c j).storage = c.storage) ∧
    ((nextSlide c).currentSlide = c.currentSlide ∧
     (nextSlide c).slides = c.slides ∧
     (nextSlide c).storage = c.storage) ∧
    ((previousSlide c).currentSlide = c.currentSlide ∧
     (previousSlide c).slides = c.slides ∧
     (previousSlide c).storage = c.storage) ∧
    (((handleKeyboard c key).1).currentSlide = c.currentSlide ∧
     ((handleKeyboard c key).1).slides = c.slides ∧
     ((handleKeyboard c key).1).storage = c.storage) ∧
    (((handleTouchEnd c ex ey tn).1).currentSlide = c.currentSlide ∧
     ((handleTouchEnd c ex ey tn).1).slides = c.slides ∧
     ((handleTouchEnd c ex ey tn).1).storage = c.storage) := by
  have hgo : ∀ i, goToSlide c i = c := fun i => goToSlide_animating c h i
  have hnext : nextSlide c = c := by
    unfold nextSlide
    split
    · exact hgo _
    · rfl
  have hprev : previousSlide c = c := by
    unfold previousSlide
    split
    · exact hgo _
    · rfl
  have hkb : (handleKeyboard c key).1 = c := by
    simp [handleKeyboard, h]
  have hte : (handleTouchEnd c ex ey tn).1 = c := by
    simp [handleTouchEnd, h]
  rw [hgo j, hnext, hprev, hkb, hte]
  exact ⟨⟨rfl, rfl, rfl⟩, ⟨rfl, rfl, rfl⟩, ⟨rfl, rfl, rfl⟩, ⟨rfl, rfl, rfl⟩, ⟨rfl, rfl, rfl⟩⟩

/-- Witness for C3 at a concrete locked controller. -/
theorem claim3_transitioning_rejects_witness :
    ((goToSlide { demo5 with isAnimating := true } 2).currentSlide
        = { demo5 with isAnimating := true }.currentSlide ∧
     (goToSlide { demo5 with isAnimating := true } 2).slides
        = { demo5 with isAnimating := true }.slides ∧
     (goToSlide { demo5 with isAnimating := true } 2).storage
        = { demo5 with isAnimating := true }.storage) ∧
    ((nextSlide { demo5 with isAnimating := true }).currentSlide
        = { demo5 with isAnimating := true }.currentSlide ∧
     (nextSlide { demo5 with isAnimating := true }).slides
        = { demo5 with isAnimating := true }.slides ∧
     (nextSlide { demo5 with isAnimating := true }).storage
        = { demo5 with isAnimating := true }.storage) ∧
    ((previousSlide { demo5 with isAnimating := true }).currentSlide
        = { demo5 with isAnimating := true }.currentSlide ∧
     (previousSlide { demo5 with isAnimating := true }).slides
        = { demo5 with isAnimating := true }.slides ∧
     (previousSlide { demo5 with isAnimating := true }).storage
        = { demo5 with isAnimating := true }.storage) ∧
    (((handleKeyboard { demo5 with isAnimating := true } "ArrowRight").1).currentSlide
        = { demo5 with isAnimating := true }.currentSlide ∧
     ((handleKeyboard { demo5 with isAnimating := true } "ArrowRight").1).slides
        = { demo5 with isAnimating := true }.slides ∧
     ((handleKeyboard { demo5 with isAnimating := true } "ArrowRight").1).storage
        = { demo5 with isAnimating := true }.storage) ∧
    (((handleTouchEnd { demo5 with isAnimating := true } 20 5 200).1).currentSlide
        = { demo5 with isAnimating := true }.currentSlide ∧
     ((handleTouchEnd { demo5 with isAnimating := true } 20 5 200).1).slides
        = { demo5 with isAnimating := true }.slides ∧
     ((handleTouchEnd { demo5 with isAnimating := true } 20 5 200).1).storage
        = { demo5 with isAnimating := true }.storage) :=
  claim3_transitioning_rejects { demo5 with isAnimating := true } 2 "ArrowRight" 20 5 200 rfl

/-- C4: the keyboard router sends left-arrow and page-up to
`previousSlide`, right-arrow, page-down and space to `nextSlide`, Home
to `goToSlide 0` and End to `goToSlide (totalSlides - 1)`, invoking
`preventDefault` on each of these navigation keys, and ignores all
keyboard input while `Transitioning`. -/
theorem claim4_keyboard_routing (c : Ctrl) (key : String) :
    (c.isAnimating = false →
      handleKeyboard c "ArrowLeft" = (previousSlide c, true) ∧
      handleKeyboard c "PageUp" = (previousSlide c, true) ∧
      handleKeyboard c "ArrowRight" = (nextSlide c, true) ∧
      handleKeyboard c "PageDown" = (nextSlide c, true) ∧
      handleKeyboard c " " = (nextSlide c, true) ∧
      handleKeyboard c "Home" = (goToSlide c 0, true) ∧
      handleKeyboard c "End" = (goToSlide c ((c.totalSlides : Int) - 1), true)) ∧
    (c.isAnimating = true → handleKeyboard c key = (c, false)) := by
  constructor
  · intro h
    refine ⟨?_, ?_, ?_, ?_, ?_, ?_, ?_⟩ <;> simp [handleKeyboard, h]
  · intro h
    simp [handleKeyboard, h]

/-- Witness for C4: one routed key on an idle controller and one ignored
key on a locked controller. -/
theorem claim4_keyboard_routing_witness :
    handleKeyboard demo5 "ArrowRight" = (nextSlide demo5, true) ∧
    handleKeyboard { demo5 with isAnimating := true } "ArrowRight"
      = ({ demo5 with isAnimating := true }, false) :=
  ⟨((claim4_keyboard_routing demo5 "ArrowRight").1 (by decide)).2.2.1,
   (claim4_keyboard_routing { demo5 with isAnimating := true } "ArrowRight").2 rfl⟩

/-- A jump back to the current slide restores the slide list exactly,
provided the current slide carried `active` and not `exit`. -/
theorem modify_roundtrip (l : List Slide) (j : Int) (hj : 0 ≤ j)
    (hg : l.get? j.toNat = some { active := true, exit := false }) :
    modifySlideAt (modifySlideAt l j (fun s => { s with active := false, exit := true })) j
      (fun s => { s with exit := false, active := true }) = l := by
  have hlt : j.toNat < l.length := by
    by_contra hb
    rw [List.get?_eq_none.2 (by omega)] at hg
    cases hg
  have h1 : modifySlideAt l j (fun s => { s with active := false, exit := true })
      = l.set j.toNat { active := false, exit := true } := by
    unfold modifySlideAt
    rw [if_pos hj, hg]
  rw [h1]
  have h2 : (l.set j.toNat { active := false, exit := true }).get? j.toNat
      = some { active := false, exit := true } := by
    rw [List.get?_eq_getElem?]
    exact List.getElem?_set_eq_of_lt _ (by simpa using hlt)
  unfold modifySlideAt
  rw [if_pos hj, h2]
  show (l.set j.toNat { active := false, exit := true }).set j.toNat
      { active := true, exit := false } = l
  rw [List.set_set]
  exact set_get?_self l j.toNat _ hg

/-- C5: `goToSlide` silently rejects every out-of-range index with no
state change; from `Idle` it accepts every in-range index — the index is
adopted and the sequence runs to completion — including the current one,
where the whole sequence is a practical no-op: index, slide markings and
state are as before. -/
theorem claim5_goTo_contract (c : Ctrl) (index : Int) :
    ((index < 0 ∨ (c.totalSlides : Int) ≤ index) → goToSlide c index = c) ∧
    (c.isAnimating = false → 0 ≤ index → index < (c.totalSlides : Int) →
      (goToSlide c index).currentSlide = index ∧
      (goToSlide c index).isAnimating = false) ∧
    (c.isAnimating = false → 0 ≤ c.currentSlide →
      c.currentSlide < (c.totalSlides : Int) →
      c.slides.get? c.currentSlide.toNat = some { active := true, exit := false } →
      (goToSlide c c.currentSlide).currentSlide = c.currentSlide ∧
      (goToSlide c c.currentSlide).slides = c.slides ∧
      (goToSlide c c.currentSlide).isAnimating = false) := by
  refine ⟨?_, ?_, ?_⟩
  · intro h
    unfold goToSlide
    rw [if_pos (Or.inr h)]
  · intro hidle h0 hlt
    rw [goToSlide_run c index hidle h0 hlt]
    simp
  · intro hidle h0 hlt hg
    rw [goToSlide_run c c.currentSlide hidle h0 hlt]
    refine ⟨by simp, ?_, by simp⟩
    simp only [goToSlideSettle_slides, goToSlideCommit_slides, goToSlideStart_slides,
      goToSlideStart_currentSlide]
    exact modify_roundtrip c.slides c.currentSlide h0 hg

/-- Witness for C5: rejection at index 7, acceptance at index 2, and the
jump-to-current no-op, all on the five-slide controller. -/
theorem claim5_goTo_contract_witness :
    goToSlide demo5 7 = demo5 ∧
    ((goToSlide demo5 2).currentSlide = 2 ∧ (goToSlide demo5 2).isAnimating = false) ∧
    ((goToSlide demo5 demo5.currentSlide).currentSlide = demo5.currentSlide ∧
     (goToSlide demo5 demo5.currentSlide).slides = demo5.slides ∧
     (goToSlide demo5 demo5.currentSlide).isAnimating = false) :=
  ⟨(claim5_goTo_contract demo5 7).1 (by decide),
   (claim5_goTo_contract demo5 2).2.1 (by decide) (by decide) (by decide),
   (claim5_goTo_contract demo5 demo5.currentSlide).2.2 (by decide) (by decide) (by decide)
     (by decide)⟩

/-- C6: a touch gesture triggers a navigation exactly when its
horizontal displacement magnitude exceeds its vertical displacement
magnitude, exceeds 50 units, and the gesture lasts under 500 ms; a
positive horizontal displacement triggers exactly one
`previousSlide`-equivalent transition and a negative one exactly one
`nextSlide`-equivalent transition. -/
theorem claim6_swipe (c : Ctrl) (sx sy t0 ex ey t1 : Int)
    (hidle : c.isAnimating = false) :
    (((ey - sy).natAbs < (ex - sx).natAbs ∧ 50 < (ex - sx).natAbs ∧ t1 - t0 < 500) →
      ((0 < ex - sx →
          handleTouchEnd (handleTouchStart c sx sy t0) ex ey t1
            = (previousSlide (handleTouchStart c sx sy t0), true)) ∧
       (ex - sx < 0 →
          handleTouchEnd (handleTouchStart c sx sy t0) ex ey t1
            = (nextSlide (handleTouchStart c sx sy t0), true)))) ∧
    (¬ ((ey - sy).natAbs < (ex - sx).natAbs ∧ 50 < (ex - sx).natAbs ∧ t1 - t0 < 500) →
      handleTouchEnd (handleTouchStart c sx sy t0) ex ey t1
        = (handleTouchStart c sx sy t0, false)) := by
  constructor
  · intro hcond
    constructor
    · intro hdir
      simp only [handleTouchEnd, handleTouchStart, hidle]
      rw [if_neg (by simp), if_pos (by simpa using hcond), if_pos hdir]
    · intro hdir
      simp only [handleTouchEnd, handleTouchStart, hidle]
      rw [if_neg (by simp), if_pos (by simpa using hcond), if_neg (by omega)]
  · intro hcond
    simp only [handleTouchEnd, handleTouchStart, hidle]
    rw [if_neg (by simp), if_neg (by simpa using hcond)]

/-- Witness for C6: the three spec examples — displacement `-80` in
200 ms swipes to the next slide, `+80` to the previous slide, and the
same displacement over 600 ms does nothing. -/
theorem claim6_swipe_witness :
    handleTouchEnd (handleTouchStart demo5 100 0 0) 20 5 200
      = (nextSlide (handleTouchStart demo5 100 0 0), true) ∧
    handleTouchEnd (handleTouchStart demo5 100 0 0) 180 5 200
      = (previousSlide (handleTouchStart demo5 100 0 0), true) ∧
    handleTouchEnd (handleTouchStart demo5 100 0 0) 20 5 600
      = (handleTouchStart demo5 100 0 0, false) :=
  ⟨((claim6_swipe demo5 100 0 0 20 5 200 (by decide)).1 (by decide)).2 (by decide),
   ((claim6_swipe demo5 100 0 0 180 5 200 (by decide)).1 (by decide)).1 (by decide),
   (claim6_swipe demo5 100 0 0 20 5 600 (by decide)).2 (by decide)⟩

/-- A burst of resize events each arriving before the pending debounce
timer's fire time keeps cancelling and restarting it: no callback runs
during the burst, and afterwards exactly one timer is pending, set by
the last event. -/
theorem processResize_no_fire (ts : List Nat) (prev : Nat) (cr : List Nat)
    (h : gapsLt 250 (prev :: ts) = true) :
    processResizeEvents { pending := some (prev + 250), chartResizes := cr } ts
      = { pending := some (lastD prev ts + 250), chartResizes := cr } := by
  induction ts generalizing prev with
  | nil => rfl
  | cons t rest ih =>
      have h2 : t < prev + 250 ∧ gapsLt 250 (t :: rest) = true := by
        have := h
        unfold gapsLt at this
        simpa using this
      have hf : fireDue { pending := some (prev + 250), chartResizes := cr } t
          = { pending := some (prev + 250), chartResizes := cr } := by
        show (if prev + 250 ≤ t then
            ({ pending := none, chartResizes := cr.map (fun n => n + 1) } : RState)
          else { pending := some (prev + 250), chartResizes := cr })
          = { pending := some (prev + 250), chartResizes := cr }
        rw [if_neg (by omega)]
      rw [processResizeEvents, hf]
      have hre : resizeEvent { pending := some (prev + 250), chartResizes := cr } t
          = { pending := some (t + 250), chartResizes := cr } := rfl
      rw [hre, ih t h2.2]
      rfl

/-- C7: any nonempty burst of resize events whose consecutive gaps are
below the 250 ms debounce window produces, once the quiet period
elapses, exactly one chart-relayout pass: every registered chart
receives exactly one `resize()` call, not one per event. -/
theorem claim7_debounce (n t : Nat) (ts : List Nat)
    (h : gapsLt 250 (t :: ts) = true) :
    (finishResize (processResizeEvents (initResize n) (t :: ts))).chartResizes
      = List.replicate n 1 := by
  have hstep : processResizeEvents (initResize n) (t :: ts)
      = processResizeEvents { pending := some (t + 250), chartResizes := List.replicate n 0 } ts := by
    rw [processResizeEvents]
    rfl
  have hgaps : gapsLt 250 (t :: ts) = true := h
  rw [hstep, processResize_no_fire ts t (List.replicate n 0) hgaps]
  unfold finishResize
  simp [List.map_replicate]

/-- Witness for C7: five resize events 100 ms apart over three charts
yield exactly one `resize()` call per chart. -/
theorem claim7_debounce_witness :
    (finishResize (processResizeEvents (initResize 3) (0 :: [100, 200, 300, 400]))).chartResizes
      = List.replicate 3 1 :=
  claim7_debounce 3 0 [100, 200, 300, 400] (by decide)

/-- C8: `saveProgress` writes the current index to storage and swallows
a throwing store without any other state change; a navigation
transition completes identically on every controller-visible field
whether or not the persistence write throws. -/
theorem claim8_persistence_isolation (c : Ctrl) (index : Int) :
    (c.storageFails = true → saveProgress c = c) ∧
    (c.storageFails = false →
      (saveProgress c).storage = some (toString c.currentSlide) ∧
      (saveProgress c).currentSlide = c.currentSlide ∧
      (saveProgress c).slides = c.slides ∧
      (saveProgress c).isAnimating = c.isAnimating) ∧
    ((goToSlide { c with storageFails := true } index).currentSlide
        = (goToSlide { c with storageFails := false } index).currentSlide ∧
     (goToSlide { c with storageFails := true } index).slides
        = (goToSlide { c with storageFails := false } index).slides ∧
     (goToSlide { c with storageFails := true } index).isAnimating
        = (goToSlide { c with storageFails := false } index).isAnimating ∧
     (goToSlide { c with storageFails := true } index).prevDisabled
        = (goToSlide { c with storageFails := false } index).prevDisabled ∧
     (goToSlide { c with storageFails := true } index).nextDisabled
        = (goToSlide { c with storageFails := false } index).nextDisabled ∧
     (goToSlide { c with storageFails := true } index).progressWidth
        = (goToSlide { c with storageFails := false } index).progressWidth ∧
     (goToSlide { c with storageFails := true } index).counter
        = (goToSlide { c with storageFails := false } index).counter) := by
  refine ⟨?_, ?_, ?_⟩
  · intro h
    unfold saveProgress
    rw [if_pos h]
  · intro h
    unfold saveProgress
    rw [if_neg (by rw [h]; intro hb; cases hb)]
    exact ⟨rfl, rfl, rfl, rfl⟩
  · by_cases hg : c.isAnimating = true ∨ index < 0 ∨ (c.totalSlides : Int) ≤ index
    · rw [goToSlide, goToSlide, if_pos (by simpa using hg), if_pos (by simpa using hg)]
      exact ⟨rfl, rfl, rfl, rfl, rfl, rfl, rfl⟩
    · rw [goToSlide, goToSlide, if_neg (by simpa using hg), if_neg (by simpa using hg)]
      refine ⟨?_, ?_, ?_, ?_, ?_, ?_, ?_⟩
      · simp
      · simp
      · simp
      · rw [goToSlideSettle_prevDisabled, goToSlideSettle_prevDisabled]
        simp
      · rw [goToSlideSettle_nextDisabled, goToSlideSettle_nextDisabled]
        simp
      · simp
      · simp

/-- Witness for C8 at the five-slide controller and index 1. -/
theorem claim8_persistence_isolation_witness :
    saveProgress { demo5 with storageFails := true } = { demo5 with storageFails := true } ∧
    (saveProgress demo5).storage = some (toString demo5.currentSlide) ∧
    (goToSlide { demo5 with storageFails := true } 1).currentSlide
      = (goToSlide { demo5 with storageFails := false } 1).currentSlide :=
  ⟨(claim8_persistence_isolation { demo5 with storageFails := true } 1).1 rfl,
   ((claim8_persistence_isolation demo5 1).2.1 (by decide)).1,
   (claim8_persistence_isolation demo5 1).2.2.1⟩

/-- C1 (the claimed round-trip fails in the code): saving at index 1
over two slides stores the string `"1"`, and `loadProgress` on a fresh
controller over that storage does restore index 1 — but the constructor
runs `showSlide(0)` after `loadProgress()`, so a freshly constructed
controller always starts at index 0, not at the persisted index. -/
theorem claim1_restore_clobbered :
    (saveProgress { newController [blankSlide, blankSlide] none false with currentSlide := 1 }).storage
      = some "1" ∧
    (loadProgress (newController [blankSlide, blankSlide] (some "1") false)).currentSlide = 1 ∧
    (mkController [blankSlide, blankSlide] (some "1") false).currentSlide = 0 := by
  refine ⟨by decide, by decide, by decide⟩

/-- C10: `loadProgress` adopts any stored string whose leading numeric
prefix parses to an in-range integer (for example `"2.9"` and `"2px"`
both restore index 2 when more than two slides exist); the fallback to
index 0 happens exactly when parsing yields `NaN`, the parsed value is
out of range, the key is absent, or storage access throws. -/
theorem claim10_loadProgress_leading_digits (c : Ctrl) (hc : c.currentSlide = 0) :
    (c.storageFails = false → 2 < c.totalSlides →
      ((loadProgress { c with storage := some "2.9" }).currentSlide = 2 ∧
       (loadProgress { c with storage := some "2px" }).currentSlide = 2)) ∧
    (∀ s v, c.storageFails = false → c.storage = some s → jsParseInt s = some v →
      0 ≤ v → v < (c.totalSlides : Int) → (loadProgress c).currentSlide = v) ∧
    ((c.storageFails = true ∨ c.storage = none ∨
      (∃ s, c.storage = some s ∧ jsParseInt s = none) ∨
      (∃ s v, c.storage = some s ∧ jsParseInt s = some v ∧
        (v < 0 ∨ (c.totalSlides : Int) ≤ v))) →
      (loadProgress c).currentSlide = 0) := by
  obtain ⟨sl, cur, tot, anim, pd, nd, pw, cnt, tcnt, tx, ty, tt, st, sf⟩ := c
  have hcur : cur = 0 := hc
  subst hcur
  refine ⟨?_, ?_, ?_⟩
  · intro hf htotal
    have hsf : sf = false := hf
    subst hsf
    have htot : (2 : Int) < ((tot : Nat) : Int) := by
      have : 2 < tot := htotal
      omega
    have h29 : jsParseInt "2.9" = some 2 := by decide
    have h2px : jsParseInt "2px" = some 2 := by decide
    constructor
    · simp [loadProgress, h29, htot]
    · simp [loadProgress, h2px, htot]
  · intro s v hf hs hp h0 hlt
    have hsf : sf = false := hf
    subst hsf
    have hst : st = some s := hs
    subst hst
    have hlt2 : v < ((tot : Nat) : Int) := hlt
    simp [loadProgress, hp, h0, hlt2]
  · intro hcase
    rcases hcase with hf | hnone | ⟨s, hs, hp⟩ | ⟨s, v, hs, hp, hout⟩
    · have hsf : sf = true := hf
      subst hsf
      simp [loadProgress]
    · have hst : st = none := hnone
      subst hst
      simp [loadProgress]
    · have hst : st = some s := hs
      subst hst
      simp [loadProgress, hp]
    · have hst : st = some s := hs
      subst hst
      have hneg : ¬ (0 ≤ v ∧ v < ((tot : Nat) : Int)) := by
        have : v < 0 ∨ ((tot : Nat) : Int) ≤ v := hout
        omega
      simp [loadProgress, hp, hneg]

/-- Witness for C10: `"2.9"` and `"2px"` both restore index 2 on the
five-slide controller. -/
theorem claim10_loadProgress_leading_digits_witness :
    (loadProgress { demo5 with storage := some "2.9" }).currentSlide = 2 ∧
    (loadProgress { demo5 with storage := some "2px" }).currentSlide = 2 :=
  (claim10_loadProgress_leading_digits demo5 (by decide)).1 (by decide) (by decide)

end Presentation
